import Mathlib

/-!
Preprocessor semantics of the ROMS application headers.

The repository consists of three C-preprocessor header files
(`upwelling/upwelling.h`, `bpart/bpart.h`, `ideal_2per/ideal_2per.h`).  Each of
them is a sequence of `#define`, `#undef` and conditional (`#if`, `#ifdef`,
with or without `#else`) directives over object-like macros without a value.

A header is embedded as the list of its directives, in source order, with the
comments removed (as translation phase 3 of the C preprocessor does).  The
set of macros that are defined is a `Finset String`; `#define` inserts a name
and `#undef` erases it, and a conditional group runs the branch selected by its
controlling expression, evaluated on the macro set at that point of the file.
Running a header turns the macro set before the `#include` into the macro set
after it.
-/

namespace CppHeader

/-- The macro set: names that are currently defined. -/
abbrev MacroSet := Finset String

/-- Controlling expression of `#if` / `#ifdef`, as far as the headers use it:
`defined NAME` and `||`. -/
inductive Cond where
  | defined (name : String)
  | or (a b : Cond)

/-- One preprocessor directive (a conditional group counts as one). -/
inductive Directive where
  | define (name : String)
  | undefine (name : String)
  | ifElse (c : Cond) (thenB elseB : List Directive)

/-- Value of a controlling expression on a macro set. -/
def Cond.eval : Cond → MacroSet → Bool
  | .defined n, S => decide (n ∈ S)
  | .or a b, S => a.eval S || b.eval S

mutual
/-- Effect of one directive on the macro set. -/
def Directive.exec : Directive → MacroSet → MacroSet
  | .define n, S => insert n S
  | .undefine n, S => S.erase n
  | .ifElse c t e, S => if c.eval S then execList t S else execList e S
/-- Effect of a sequence of directives, first to last. -/
def execList : List Directive → MacroSet → MacroSet
  | [], S => S
  | d :: ds, S => execList ds (d.exec S)
end

/-- The `#ifdef NAME ... #endif` form: no `#else` group. -/
abbrev Directive.ifdefined (name : String) (body : List Directive) : Directive :=
  .ifElse (.defined name) body []

/-- Directives of `upwelling/upwelling.h`, lines 16 to 78. -/
def upwelling_h : List Directive := [
  .define "UV_ADV",
  .define "UV_COR",
  .define "UV_LDRAG",
  .define "UV_VIS2",
  .undefine "MIX_GEO_UV",
  .define "MIX_S_UV",
  .define "SPLINES_VDIFF",
  .define "SPLINES_VVISC",
  .define "DJ_GRADPS",
  .define "TS_DIF2",
  .undefine "TS_DIF4",
  .undefine "MIX_GEO_TS",
  .define "MIX_S_TS",
  .define "SALINITY",
  .define "SOLVE3D",
  .define "AVERAGES",
  .define "DIAGNOSTICS_TS",
  .define "DIAGNOSTICS_UV",
  .define "ANA_GRID",
  .define "ANA_INITIAL",
  .define "ANA_SMFLUX",
  .define "ANA_STFLUX",
  .define "ANA_SSFLUX",
  .define "ANA_BTFLUX",
  .define "ANA_BSFLUX",
  .ifElse (.or (.defined "GLS_MIXING") (.defined "MY25_MIXING"))
    [ .define "KANTHA_CLAYSON",
      .define "N2S2_HORAVG",
      .define "RI_SPLINES" ]
    [ .define "ANA_VMIX" ],
  .ifElse (.or (.or (.or (.defined "BIO_FENNEL") (.defined "ECOSIM"))
                    (.defined "NPZD_POWELL")) (.defined "NEMURO"))
    [ .define "ANA_BIOLOGY",
      .define "ANA_SPFLUX",
      .define "ANA_BPFLUX",
      .define "ANA_SRFLUX" ]
    [],
  .ifElse (.defined "NEMURO")
    [ .define "HOLLING_GRAZING",
      .undefine "IVLEV_EXPLICIT" ]
    [],
  .ifdefined "BIO_FENNEL"
    [ .define "CARBON",
      .define "DENITRIFICATION",
      .define "BIO_SEDIMENT",
      .define "DIAGNOSTICS_BIO" ],
  .ifdefined "PERFECT_RESTART"
    [ .undefine "AVERAGES",
      .undefine "DIAGNOSTICS_BIO",
      .undefine "DIAGNOSTICS_TS",
      .undefine "DIAGNOSTICS_UV",
      .define "OUT_DOUBLE" ]
]

/-- Directives of `bpart/bpart.h`, lines 15 to 103.  Lines 61 to 81
("Previous biology options") are one comment and contribute nothing. -/
def bpart_h : List Directive := [
  .define "UV_ADV",
  .define "UV_COR",
  .define "UV_QDRAG",
  .define "DJ_GRADPS",
  .define "TS_DIF2",
  .define "MIX_GEO_TS",
  .define "SALINITY",
  .define "SOLVE3D",
  .undefine "AVERAGES",
  .undefine "DIAGNOSTICS_TS",
  .undefine "DIAGNOSTICS_UV",
  .define "NONLIN_EOS",
  .define "MASKING",
  .define "SPHERICAL",
  .define "SOLAR_SOURCE",
  .define "BULK_FLUXES",
  .define "LONGWAVE_OUT",
  .define "DEFLATE",
  .define "HDF5",
  .define "RADIATION_2D",
  .undefine "RAMP_TIDES",
  .define "SSH_TIDES",
  .define "UV_TIDES",
  .define "ADD_FSOBC",
  .define "ADD_M2OBC",
  .undefine "ANA_SMFLUX",
  .undefine "ANA_STFLUX",
  .define "ANA_SSFLUX",
  .define "ANA_BTFLUX",
  .define "ANA_BSFLUX",
  .define "GLS_MIXING",
  .ifElse (.defined "GLS_MIXING")
    [ .define "CANUTO_A",
      .define "N2S2_HORAVG",
      .define "RI_SPLINES" ]
    [],
  .define "BIO_FENNEL",
  .ifdefined "BIO_FENNEL"
    [ .define "BIO_SEDIMENT",
      .define "DENITRIFICATION",
      .undefine "RIVER_DON",
      .define "OXYGEN",
      .define "CARBON",
      .define "pCO2_RZ",
      .define "TALK_NONCONSERV",
      .define "ANA_SPFLUX",
      .define "ANA_BPFLUX" ],
  .ifdefined "PERFECT_RESTART"
    [ .undefine "AVERAGES",
      .undefine "DIAGNOSTICS_BIO",
      .undefine "DIAGNOSTICS_TS",
      .undefine "DIAGNOSTICS_UV",
      .define "OUT_DOUBLE" ]
]

/-- Directives of `ideal_2per/ideal_2per.h`, lines 18 to 98. -/
def ideal_2per_h : List Directive := [
  .undefine "ANA_PSOURCE",
  .define "ANA_GRID",
  .define "ANA_INITIAL",
  .define "UV_VIS2",
  .define "MIX_S_UV",
  .define "TS_DIF2",
  .define "MIX_S_TS",
  .define "UV_ADV",
  .define "UV_COR",
  .define "UV_QDRAG",
  .define "DJ_GRADPS",
  .define "SPLINES_VDIFF",
  .define "SPLINES_VVISC",
  .define "SOLAR_SOURCE",
  .undefine "NONLIN_EOS",
  .define "SALINITY",
  .define "AVERAGES",
  .define "AVERAGES_AKV",
  .define "AVERAGES_AKT",
  .define "SOLVE3D",
  .define "DIAGNOSTICS_TS",
  .define "DIAGNOSTICS_UV",
  .undefine "LMD_MIXING",
  .define "GLS_MIXING",
  .ifdefined "LMD_MIXING"
    [ .define "LMD_RIMIX",
      .define "LMD_CONVEC",
      .define "LMD_SKPP",
      .define "LMD_BKPP",
      .define "LMD_NONLOCAL",
      .define "RI_SPLINES" ],
  .ifdefined "GLS_MIXING"
    [ .define "N2S2_HORAVG",
      .define "RI_SPLINES",
      .undefine "CANUTO_A",
      .undefine "CANUTO_B",
      .define "KANTHA_CLAYSON",
      .undefine "CHARNOK",
      .undefine "ZOS_HSIG",
      .undefine "CRAIG_BANNER",
      .undefine "TKE_WAVEDISS" ],
  .undefine "BULK_FLUXES",
  .ifElse (.defined "BULK_FLUXES")
    [ .define "ANA_PAIR",
      .define "ANA_HUMIDITY",
      .define "ANA_TAIR",
      .define "ANA_SRFLUX",
      .define "LONGWAVE",
      .define "ANA_RAIN",
      .define "ANA_CLOUD",
      .define "ANA_WINDS" ]
    [ .undefine "ATM_PRESS",
      .undefine "ANA_PAIR",
      .undefine "RAMP_TIDES",
      .define "ANA_SRFLUX",
      .define "ANA_SMFLUX",
      .define "ANA_STFLUX" ],
  .define "ANA_SSFLUX",
  .define "ANA_BSFLUX",
  .define "ANA_BTFLUX",
  .undefine "ANA_WWAVE",
  .define "LWSRC_MASS_ONLY"
]

/-- Macro set after including `upwelling.h`, from the macro set before. -/
def upwelling (S : MacroSet) : MacroSet := execList upwelling_h S

/-- Macro set after including `bpart.h`, from the macro set before. -/
def bpart (S : MacroSet) : MacroSet := execList bpart_h S

/-- Macro set after including `ideal_2per.h`, from the macro set before. -/
def ideal_2per (S : MacroSet) : MacroSet := execList ideal_2per_h S

/-- Names set by a `#define` that is outside every conditional group. -/
def topDefines : List Directive → List String
  | [] => []
  | .define n :: ds => n :: topDefines ds
  | _ :: ds => topDefines ds

/-- Names cleared by an `#undef` that is outside every conditional group. -/
def topUndefs : List Directive → List String
  | [] => []
  | .undefine n :: ds => n :: topUndefs ds
  | _ :: ds => topUndefs ds

/-!
Proof devices.

A run of a header on `S` is summarised by its write log; the macro set after
the run is the log replayed on `S` (`execList_eq_replay`).
-/

/-- Write log: the assignments a run has performed, most recent first;
`true` stands for `#define`, `false` for `#undef`. -/
abbrev Log := List (String × Bool)

/-- Macro set obtained by performing the assignments of a log, oldest first. -/
def Log.replay : Log → MacroSet → MacroSet
  | [], S => S
  | (n, true) :: L, S => insert n (Log.replay L S)
  | (n, false) :: L, S => (Log.replay L S).erase n

/-- Status of the name `x` after a log: the most recent assignment to `x`, or
`d` when the log does not assign `x`. -/
def Log.value : Log → Bool → String → Bool
  | [], d, _ => d
  | (n, b) :: L, d, x => if x = n then b else Log.value L d x

/-- Value of a controlling expression on the macro set `L.replay S`, read off
the log. -/
def Cond.evalLog : Cond → MacroSet → Log → Bool
  | .defined n, S, L => L.value (decide (n ∈ S)) n
  | .or a b, S, L => a.evalLog S L || b.evalLog S L

mutual
/-- Log after one directive, run on the macro set `L.replay S`. -/
def Directive.trace : Directive → MacroSet → Log → Log
  | .define n, _, L => (n, true) :: L
  | .undefine n, _, L => (n, false) :: L
  | .ifElse c t e, S, L => if c.evalLog S L then traceList t S L else traceList e S L
/-- Log after a sequence of directives, run on the macro set `L.replay S`. -/
def traceList : List Directive → MacroSet → Log → Log
  | [], _, L => L
  | d :: ds, S, L => traceList ds S (d.trace S L)
end

/-- Names whose most recent assignment in the log is a `#define`. -/
def Log.onSet : Log → Finset String
  | [] => ∅
  | (n, true) :: L => insert n (Log.onSet L)
  | (n, false) :: L => (Log.onSet L).erase n

/-- Names whose most recent assignment in the log is an `#undef`. -/
def Log.offSet : Log → Finset String
  | [] => ∅
  | (n, true) :: L => (Log.offSet L).erase n
  | (n, false) :: L => insert n (Log.offSet L)

/-- Closed form of the log of `upwelling.h` on the initial macro set `S`. -/
def upwelling_log (S : MacroSet) : Log :=
  (if "PERFECT_RESTART" ∈ S then
      [("OUT_DOUBLE", true), ("DIAGNOSTICS_UV", false), ("DIAGNOSTICS_TS", false),
       ("DIAGNOSTICS_BIO", false), ("AVERAGES", false)]
    else []) ++
  (if "BIO_FENNEL" ∈ S then
      [("DIAGNOSTICS_BIO", true), ("BIO_SEDIMENT", true), ("DENITRIFICATION", true),
       ("CARBON", true)]
    else []) ++
  (if "NEMURO" ∈ S then [("IVLEV_EXPLICIT", false), ("HOLLING_GRAZING", true)] else []) ++
  (if "BIO_FENNEL" ∈ S ∨ "ECOSIM" ∈ S ∨ "NPZD_POWELL" ∈ S ∨ "NEMURO" ∈ S then
      [("ANA_SRFLUX", true), ("ANA_BPFLUX", true), ("ANA_SPFLUX", true), ("ANA_BIOLOGY", true)]
    else []) ++
  (if "GLS_MIXING" ∈ S ∨ "MY25_MIXING" ∈ S then
      [("RI_SPLINES", true), ("N2S2_HORAVG", true), ("KANTHA_CLAYSON", true)]
    else [("ANA_VMIX", true)]) ++
  [("ANA_BSFLUX", true), ("ANA_BTFLUX", true), ("ANA_SSFLUX", true), ("ANA_STFLUX", true),
   ("ANA_SMFLUX", true), ("ANA_INITIAL", true), ("ANA_GRID", true), ("DIAGNOSTICS_UV", true),
   ("DIAGNOSTICS_TS", true), ("AVERAGES", true), ("SOLVE3D", true), ("SALINITY", true),
   ("MIX_S_TS", true), ("MIX_GEO_TS", false), ("TS_DIF4", false), ("TS_DIF2", true),
   ("DJ_GRADPS", true), ("SPLINES_VVISC", true), ("SPLINES_VDIFF", true), ("MIX_S_UV", true),
   ("MIX_GEO_UV", false), ("UV_VIS2", true), ("UV_LDRAG", true), ("UV_COR", true),
   ("UV_ADV", true)]

/-- Closed form of the log of `bpart.h` on the initial macro set `S`. -/
def bpart_log (S : MacroSet) : Log :=
  (if "PERFECT_RESTART" ∈ S then
      [("OUT_DOUBLE", true), ("DIAGNOSTICS_UV", false), ("DIAGNOSTICS_TS", false),
       ("DIAGNOSTICS_BIO", false), ("AVERAGES", false)]
    else []) ++
  [("ANA_BPFLUX", true), ("ANA_SPFLUX", true), ("TALK_NONCONSERV", true), ("pCO2_RZ", true),
   ("CARBON", true), ("OXYGEN", true), ("RIVER_DON", false), ("DENITRIFICATION", true),
   ("BIO_SEDIMENT", true), ("BIO_FENNEL", true), ("RI_SPLINES", true), ("N2S2_HORAVG", true),
   ("CANUTO_A", true), ("GLS_MIXING", true), ("ANA_BSFLUX", true), ("ANA_BTFLUX", true),
   ("ANA_SSFLUX", true), ("ANA_STFLUX", false), ("ANA_SMFLUX", false), ("ADD_M2OBC", true),
   ("ADD_FSOBC", true), ("UV_TIDES", true), ("SSH_TIDES", true), ("RAMP_TIDES", false),
   ("RADIATION_2D", true), ("HDF5", true), ("DEFLATE", true), ("LONGWAVE_OUT", true),
   ("BULK_FLUXES", true), ("SOLAR_SOURCE", true), ("SPHERICAL", true), ("MASKING", true),
   ("NONLIN_EOS", true), ("DIAGNOSTICS_UV", false), ("DIAGNOSTICS_TS", false),
   ("AVERAGES", false), ("SOLVE3D", true), ("SALINITY", true), ("MIX_GEO_TS", true),
   ("TS_DIF2", true), ("DJ_GRADPS", true), ("UV_QDRAG", true), ("UV_COR", true),
   ("UV_ADV", true)]

/-- Closed form of the log of `ideal_2per.h`: the same on every initial macro
set. -/
def ideal_2per_log : Log :=
  [("LWSRC_MASS_ONLY", true), ("ANA_WWAVE", false), ("ANA_BTFLUX", true), ("ANA_BSFLUX", true),
   ("ANA_SSFLUX", true), ("ANA_STFLUX", true), ("ANA_SMFLUX", true), ("ANA_SRFLUX", true),
   ("RAMP_TIDES", false), ("ANA_PAIR", false), ("ATM_PRESS", false), ("BULK_FLUXES", false),
   ("TKE_WAVEDISS", false), ("CRAIG_BANNER", false), ("ZOS_HSIG", false), ("CHARNOK", false),
   ("KANTHA_CLAYSON", true), ("CANUTO_B", false), ("CANUTO_A", false), ("RI_SPLINES", true),
   ("N2S2_HORAVG", true), ("GLS_MIXING", true), ("LMD_MIXING", false),
   ("DIAGNOSTICS_UV", true), ("DIAGNOSTICS_TS", true), ("SOLVE3D", true),
   ("AVERAGES_AKT", true), ("AVERAGES_AKV", true), ("AVERAGES", true), ("SALINITY", true),
   ("NONLIN_EOS", false), ("SOLAR_SOURCE", true), ("SPLINES_VVISC", true),
   ("SPLINES_VDIFF", true), ("DJ_GRADPS", true), ("UV_QDRAG", true), ("UV_COR", true),
   ("UV_ADV", true), ("MIX_S_TS", true), ("TS_DIF2", true), ("MIX_S_UV", true),
   ("UV_VIS2", true), ("ANA_INITIAL", true), ("ANA_GRID", true), ("ANA_PSOURCE", false)]

/-! ## Semantics of the directives and of logs -/

theorem execList_nil (S : MacroSet) : execList [] S = S := by simp [execList]

theorem execList_cons (d : Directive) (ds : List Directive) (S : MacroSet) :
    execList (d :: ds) S = execList ds (d.exec S) := by simp [execList]

theorem exec_define (n : String) (S : MacroSet) : (Directive.define n).exec S = insert n S := by
  simp [Directive.exec]

theorem exec_undefine (n : String) (S : MacroSet) : (Directive.undefine n).exec S = S.erase n := by
  simp [Directive.exec]

theorem exec_ifElse (c : Cond) (t e : List Directive) (S : MacroSet) :
    (Directive.ifElse c t e).exec S = if c.eval S then execList t S else execList e S := by
  simp [Directive.exec]

theorem traceList_nil (S : MacroSet) (L : Log) : traceList [] S L = L := by simp [traceList]

theorem traceList_cons (d : Directive) (ds : List Directive) (S : MacroSet) (L : Log) :
    traceList (d :: ds) S L = traceList ds S (d.trace S L) := by simp [traceList]

theorem trace_define (n : String) (S : MacroSet) (L : Log) :
    (Directive.define n).trace S L = (n, true) :: L := by simp [Directive.trace]

theorem trace_undefine (n : String) (S : MacroSet) (L : Log) :
    (Directive.undefine n).trace S L = (n, false) :: L := by simp [Directive.trace]

theorem trace_ifElse (c : Cond) (t e : List Directive) (S : MacroSet) (L : Log) :
    (Directive.ifElse c t e).trace S L
      = if c.evalLog S L then traceList t S L else traceList e S L := by
  simp [Directive.trace]

theorem value_nil (d : Bool) (x : String) : Log.value [] d x = d := rfl

theorem value_cons (n : String) (b : Bool) (L : Log) (d : Bool) (x : String) :
    Log.value ((n, b) :: L) d x = if x = n then b else Log.value L d x := rfl

theorem value_append (L₁ L₂ : Log) (d : Bool) (x : String) :
    Log.value (L₁ ++ L₂) d x = Log.value L₁ (Log.value L₂ d x) x := by
  induction L₁ with
  | nil => rfl
  | cons p L ih =>
    obtain ⟨n, b⟩ := p
    simp only [List.cons_append, value_cons, ih]

theorem value_ite (c : Prop) [Decidable c] (L₁ L₂ : Log) (d : Bool) (x : String) :
    Log.value (if c then L₁ else L₂) d x = if c then Log.value L₁ d x else Log.value L₂ d x := by
  split <;> rfl

/-- The macro set after a log holds exactly the names whose status is `true`. -/
theorem mem_replay (L : Log) (S : MacroSet) (x : String) :
    x ∈ L.replay S ↔ L.value (decide (x ∈ S)) x = true := by
  induction L with
  | nil => simp [Log.replay, Log.value]
  | cons p L ih =>
    obtain ⟨n, b⟩ := p
    cases b <;> by_cases hx : x = n <;> simp [Log.replay, Log.value, hx, ih]

theorem eval_replay (c : Cond) (S : MacroSet) (L : Log) :
    c.eval (L.replay S) = c.evalLog S L := by
  induction c with
  | defined n =>
    simp only [Cond.eval, Cond.evalLog]
    rw [Bool.eq_iff_iff]
    simp [mem_replay]
  | or a b iha ihb => simp [Cond.eval, Cond.evalLog, iha, ihb]

mutual
theorem exec_replay (d : Directive) (S : MacroSet) (L : Log) :
    d.exec (L.replay S) = (d.trace S L).replay S := by
  match d with
  | .define n => simp [exec_define, trace_define, Log.replay]
  | .undefine n => simp [exec_undefine, trace_undefine, Log.replay]
  | .ifElse c t e =>
    rw [exec_ifElse, trace_ifElse, eval_replay]
    split
    · exact execList_replay t S L
    · exact execList_replay e S L
theorem execList_replay (ds : List Directive) (S : MacroSet) (L : Log) :
    execList ds (L.replay S) = (traceList ds S L).replay S := by
  match ds with
  | [] => simp [execList_nil, traceList_nil]
  | d :: ds =>
    rw [execList_cons, traceList_cons, exec_replay d S L]
    exact execList_replay ds S (d.trace S L)
end

/-- Running a header is replaying its log. -/
theorem execList_eq_replay (ds : List Directive) (S : MacroSet) :
    execList ds S = (traceList ds S []).replay S := by
  have h := execList_replay ds S []
  simpa only [Log.replay] using h

/-! ## Closed forms of the three headers -/

theorem upwelling_trace (S : MacroSet) : traceList upwelling_h S [] = upwelling_log S := by
  by_cases h0 : "PERFECT_RESTART" ∈ S <;>
  by_cases h1 : "GLS_MIXING" ∈ S ∨ "MY25_MIXING" ∈ S <;>
  by_cases h2 : "NEMURO" ∈ S <;>
  by_cases h3 : "BIO_FENNEL" ∈ S <;>
  by_cases h4 : "ECOSIM" ∈ S ∨ "NPZD_POWELL" ∈ S <;>
  simp only [upwelling_h, upwelling_log, traceList_nil, traceList_cons, trace_define, trace_undefine,
    trace_ifElse, Cond.evalLog, value_nil, value_cons, String.reduceEq, reduceIte,
    Bool.false_eq_true, Bool.or_eq_true, decide_eq_true_eq, h0, h1, h2, h3, h4, or_true, true_or,
    or_false, false_or, List.cons_append, List.nil_append]

theorem mem_upwelling (S : MacroSet) (x : String) :
    x ∈ upwelling S ↔ (upwelling_log S).value (decide (x ∈ S)) x = true := by
  rw [upwelling, execList_eq_replay, upwelling_trace, mem_replay]

theorem bpart_trace (S : MacroSet) : traceList bpart_h S [] = bpart_log S := by
  by_cases h0 : "PERFECT_RESTART" ∈ S <;>
  simp only [bpart_h, bpart_log, traceList_nil, traceList_cons, trace_define, trace_undefine,
    trace_ifElse, Cond.evalLog, value_nil, value_cons, String.reduceEq, reduceIte,
    Bool.false_eq_true, decide_eq_true_eq, h0, List.cons_append, List.nil_append]

theorem mem_bpart (S : MacroSet) (x : String) :
    x ∈ bpart S ↔ (bpart_log S).value (decide (x ∈ S)) x = true := by
  rw [bpart, execList_eq_replay, bpart_trace, mem_replay]

theorem ideal_2per_trace (S : MacroSet) : traceList ideal_2per_h S [] = ideal_2per_log := by
  simp only [ideal_2per_h, ideal_2per_log, traceList_nil, traceList_cons, trace_define,
    trace_undefine, trace_ifElse, Cond.evalLog, value_nil, value_cons, String.reduceEq, reduceIte,
    Bool.false_eq_true]

theorem mem_ideal_2per (S : MacroSet) (x : String) :
    x ∈ ideal_2per S ↔ ideal_2per_log.value (decide (x ∈ S)) x = true := by
  rw [ideal_2per, execList_eq_replay, ideal_2per_trace, mem_replay]

/-! ## Replaying a log twice, and the sets a log switches on and off -/

theorem value_value (L : Log) (d : Bool) (x : String) :
    L.value (L.value d x) x = L.value d x := by
  induction L with
  | nil => rfl
  | cons p L ih =>
    obtain ⟨n, b⟩ := p
    by_cases hx : x = n <;> simp [value_cons, hx, ih]

theorem replay_replay (L : Log) (S : MacroSet) : L.replay (L.replay S) = L.replay S := by
  ext x
  simp only [mem_replay, Bool.decide_eq_true, value_value]

theorem mem_onSet (L : Log) (x : String) : x ∈ L.onSet ↔ L.value false x = true := by
  induction L with
  | nil => simp [Log.onSet, Log.value]
  | cons p L ih =>
    obtain ⟨n, b⟩ := p
    cases b <;> by_cases hx : x = n <;> simp [Log.onSet, Log.value, hx, ih]

theorem mem_offSet (L : Log) (x : String) : x ∈ L.offSet ↔ L.value true x = false := by
  induction L with
  | nil => simp [Log.offSet, Log.value]
  | cons p L ih =>
    obtain ⟨n, b⟩ := p
    cases b <;> by_cases hx : x = n <;> simp [Log.offSet, Log.value, hx, ih]

theorem value_split (L : Log) (d : Bool) (x : String) :
    L.value d x = (L.value false x || (d && L.value true x)) := by
  induction L with
  | nil => cases d <;> rfl
  | cons p L ih =>
    obtain ⟨n, b⟩ := p
    by_cases hx : x = n
    · cases b <;> cases d <;> simp [value_cons, hx]
    · simpa [value_cons, hx] using ih

theorem onSet_disjoint_offSet (L : Log) : Disjoint L.onSet L.offSet := by
  rw [Finset.disjoint_left]
  intro x hon hoff
  rw [mem_onSet] at hon
  rw [mem_offSet] at hoff
  have h := value_split L true x
  rw [hon, hoff] at h
  simp at h

/-- Replaying a log removes the names it switches off and adds the names it
switches on. -/
theorem replay_eq_sdiff_union (L : Log) (S : MacroSet) :
    L.replay S = (S \ L.offSet) ∪ L.onSet := by
  ext x
  rw [mem_replay, Finset.mem_union, Finset.mem_sdiff, mem_onSet, mem_offSet, value_split L _ x]
  by_cases hx : x ∈ S <;> cases L.value false x <;> cases L.value true x <;> simp [hx]

/-! ## Top-level directives of the three headers -/

theorem topDefines_upwelling :
    topDefines upwelling_h =
    ["UV_ADV", "UV_COR", "UV_LDRAG", "UV_VIS2", "MIX_S_UV", "SPLINES_VDIFF", "SPLINES_VVISC",
     "DJ_GRADPS", "TS_DIF2", "MIX_S_TS", "SALINITY", "SOLVE3D", "AVERAGES", "DIAGNOSTICS_TS",
     "DIAGNOSTICS_UV", "ANA_GRID", "ANA_INITIAL", "ANA_SMFLUX", "ANA_STFLUX", "ANA_SSFLUX",
     "ANA_BTFLUX", "ANA_BSFLUX"] := rfl

theorem topUndefs_upwelling :
    topUndefs upwelling_h =
    ["MIX_GEO_UV", "TS_DIF4", "MIX_GEO_TS"] := rfl

theorem topDefines_bpart :
    topDefines bpart_h =
    ["UV_ADV", "UV_COR", "UV_QDRAG", "DJ_GRADPS", "TS_DIF2", "MIX_GEO_TS", "SALINITY",
     "SOLVE3D", "NONLIN_EOS", "MASKING", "SPHERICAL", "SOLAR_SOURCE", "BULK_FLUXES",
     "LONGWAVE_OUT", "DEFLATE", "HDF5", "RADIATION_2D", "SSH_TIDES", "UV_TIDES", "ADD_FSOBC",
     "ADD_M2OBC", "ANA_SSFLUX", "ANA_BTFLUX", "ANA_BSFLUX", "GLS_MIXING", "BIO_FENNEL"] := rfl

theorem topUndefs_bpart :
    topUndefs bpart_h =
    ["AVERAGES", "DIAGNOSTICS_TS", "DIAGNOSTICS_UV", "RAMP_TIDES", "ANA_SMFLUX", "ANA_STFLUX"] := rfl

theorem topDefines_ideal_2per :
    topDefines ideal_2per_h =
    ["ANA_GRID", "ANA_INITIAL", "UV_VIS2", "MIX_S_UV", "TS_DIF2", "MIX_S_TS", "UV_ADV",
     "UV_COR", "UV_QDRAG", "DJ_GRADPS", "SPLINES_VDIFF", "SPLINES_VVISC", "SOLAR_SOURCE",
     "SALINITY", "AVERAGES", "AVERAGES_AKV", "AVERAGES_AKT", "SOLVE3D", "DIAGNOSTICS_TS",
     "DIAGNOSTICS_UV", "GLS_MIXING", "ANA_SSFLUX", "ANA_BSFLUX", "ANA_BTFLUX",
     "LWSRC_MASS_ONLY"] := rfl

theorem topUndefs_ideal_2per :
    topUndefs ideal_2per_h =
    ["ANA_PSOURCE", "NONLIN_EOS", "LMD_MIXING", "BULK_FLUXES", "ANA_WWAVE"] := rfl

/-! ## The names the conditions of a header read keep their status -/

theorem upwelling_reads (S : MacroSet) :
    ("PERFECT_RESTART" ∈ upwelling S ↔ "PERFECT_RESTART" ∈ S) ∧
    ("BIO_FENNEL" ∈ upwelling S ↔ "BIO_FENNEL" ∈ S) ∧
    ("NEMURO" ∈ upwelling S ↔ "NEMURO" ∈ S) ∧
    ("ECOSIM" ∈ upwelling S ↔ "ECOSIM" ∈ S) ∧
    ("NPZD_POWELL" ∈ upwelling S ↔ "NPZD_POWELL" ∈ S) ∧
    ("GLS_MIXING" ∈ upwelling S ↔ "GLS_MIXING" ∈ S) ∧
    ("MY25_MIXING" ∈ upwelling S ↔ "MY25_MIXING" ∈ S) := by
  simp only [mem_upwelling, upwelling_log, value_append, value_ite, value_nil, value_cons,
    String.reduceEq, reduceIte, ite_self, decide_eq_true_eq, and_self]

theorem bpart_reads (S : MacroSet) :
    "PERFECT_RESTART" ∈ bpart S ↔ "PERFECT_RESTART" ∈ S := by
  simp only [mem_bpart, bpart_log, value_append, value_ite, value_nil, value_cons,
    String.reduceEq, reduceIte, ite_self, decide_eq_true_eq]

theorem upwelling_eq_replay (S : MacroSet) : upwelling S = (upwelling_log S).replay S := by
  rw [upwelling, execList_eq_replay, upwelling_trace]

theorem bpart_eq_replay (S : MacroSet) : bpart S = (bpart_log S).replay S := by
  rw [bpart, execList_eq_replay, bpart_trace]

theorem ideal_2per_eq_replay (S : MacroSet) : ideal_2per S = ideal_2per_log.replay S := by
  rw [ideal_2per, execList_eq_replay, ideal_2per_trace]

theorem upwelling_log_upwelling (S : MacroSet) : upwelling_log (upwelling S) = upwelling_log S := by
  obtain ⟨h0, h1, h2, h3, h4, h5, h6⟩ := upwelling_reads S
  simp only [upwelling_log, h0, h1, h2, h3, h4, h5, h6]

theorem bpart_log_bpart (S : MacroSet) : bpart_log (bpart S) = bpart_log S := by
  simp only [bpart_log, bpart_reads S]

/-! ## Properties of the three headers -/

set_option maxRecDepth 100000

/-- C1: in `upwelling.h` and in `bpart.h`, when the macro set before the header
contains `PERFECT_RESTART`, the macro set after it contains `OUT_DOUBLE` and
none of `AVERAGES`, `DIAGNOSTICS_BIO`, `DIAGNOSTICS_TS`, `DIAGNOSTICS_UV`,
whatever else was defined before. -/
theorem C1_perfect_restart_forces (S : MacroSet) (h : "PERFECT_RESTART" ∈ S) :
    ("OUT_DOUBLE" ∈ upwelling S ∧ "AVERAGES" ∉ upwelling S ∧ "DIAGNOSTICS_BIO" ∉ upwelling S ∧
      "DIAGNOSTICS_TS" ∉ upwelling S ∧ "DIAGNOSTICS_UV" ∉ upwelling S) ∧
    ("OUT_DOUBLE" ∈ bpart S ∧ "AVERAGES" ∉ bpart S ∧ "DIAGNOSTICS_BIO" ∉ bpart S ∧
      "DIAGNOSTICS_TS" ∉ bpart S ∧ "DIAGNOSTICS_UV" ∉ bpart S) := by
  simp only [mem_upwelling, mem_bpart, upwelling_log, bpart_log, value_append, value_ite,
    value_nil, value_cons, String.reduceEq, reduceIte, h, Bool.false_eq_true, not_false_eq_true,
    and_self]

/-- C1 at the macro set `PERFECT_RESTART`, `AVERAGES`, `DIAGNOSTICS_BIO`,
`BIO_FENNEL`. -/
theorem C1_perfect_restart_forces_witness :
    "PERFECT_RESTART" ∈
      ({"PERFECT_RESTART", "AVERAGES", "DIAGNOSTICS_BIO", "BIO_FENNEL"} : MacroSet) ∧
    (("OUT_DOUBLE" ∈ upwelling {"PERFECT_RESTART", "AVERAGES", "DIAGNOSTICS_BIO", "BIO_FENNEL"} ∧
      "AVERAGES" ∉ upwelling {"PERFECT_RESTART", "AVERAGES", "DIAGNOSTICS_BIO", "BIO_FENNEL"} ∧
      "DIAGNOSTICS_BIO" ∉
        upwelling {"PERFECT_RESTART", "AVERAGES", "DIAGNOSTICS_BIO", "BIO_FENNEL"} ∧
      "DIAGNOSTICS_TS" ∉
        upwelling {"PERFECT_RESTART", "AVERAGES", "DIAGNOSTICS_BIO", "BIO_FENNEL"} ∧
      "DIAGNOSTICS_UV" ∉
        upwelling {"PERFECT_RESTART", "AVERAGES", "DIAGNOSTICS_BIO", "BIO_FENNEL"}) ∧
     ("OUT_DOUBLE" ∈ bpart {"PERFECT_RESTART", "AVERAGES", "DIAGNOSTICS_BIO", "BIO_FENNEL"} ∧
      "AVERAGES" ∉ bpart {"PERFECT_RESTART", "AVERAGES", "DIAGNOSTICS_BIO", "BIO_FENNEL"} ∧
      "DIAGNOSTICS_BIO" ∉ bpart {"PERFECT_RESTART", "AVERAGES", "DIAGNOSTICS_BIO", "BIO_FENNEL"} ∧
      "DIAGNOSTICS_TS" ∉ bpart {"PERFECT_RESTART", "AVERAGES", "DIAGNOSTICS_BIO", "BIO_FENNEL"} ∧
      "DIAGNOSTICS_UV" ∉
        bpart {"PERFECT_RESTART", "AVERAGES", "DIAGNOSTICS_BIO", "BIO_FENNEL"})) :=
  ⟨by decide, C1_perfect_restart_forces _ (by decide)⟩

/-- C2: after `ideal_2per.h` the macro set contains `GLS_MIXING`, `N2S2_HORAVG`
and `RI_SPLINES` and does not contain `LMD_MIXING`; after `bpart.h` it contains
`GLS_MIXING`, `N2S2_HORAVG` and `RI_SPLINES`; both for every macro set before. -/
theorem C2_gls_mixing_implied (S : MacroSet) :
    ("GLS_MIXING" ∈ ideal_2per S ∧ "N2S2_HORAVG" ∈ ideal_2per S ∧ "RI_SPLINES" ∈ ideal_2per S ∧
      "LMD_MIXING" ∉ ideal_2per S) ∧
    ("GLS_MIXING" ∈ bpart S ∧ "N2S2_HORAVG" ∈ bpart S ∧ "RI_SPLINES" ∈ bpart S) := by
  simp only [mem_ideal_2per, mem_bpart, ideal_2per_log, bpart_log, value_append, value_ite,
    value_nil, value_cons, String.reduceEq, reduceIte, ite_self, Bool.false_eq_true,
    not_false_eq_true, and_self]

/-- C3: in `upwelling.h`, when the macro set before the header contains none of
`GLS_MIXING`, `LMD_MIXING`, `MY25_MIXING`, the macro set after it contains
`ANA_VMIX` and still none of the three. -/
theorem C3_ana_vmix_fallback (S : MacroSet) (hG : "GLS_MIXING" ∉ S) (hL : "LMD_MIXING" ∉ S)
    (hM : "MY25_MIXING" ∉ S) :
    "ANA_VMIX" ∈ upwelling S ∧ "GLS_MIXING" ∉ upwelling S ∧ "LMD_MIXING" ∉ upwelling S ∧
      "MY25_MIXING" ∉ upwelling S := by
  simp only [mem_upwelling, upwelling_log, value_append, value_ite, value_nil, value_cons,
    String.reduceEq, reduceIte, ite_self, hG, hL, hM, or_self, decide_False, Bool.false_eq_true,
    not_false_eq_true, and_self]

/-- C3 at the macro set `BIO_FENNEL`, `PERFECT_RESTART`. -/
theorem C3_ana_vmix_fallback_witness :
    ("GLS_MIXING" ∉ ({"BIO_FENNEL", "PERFECT_RESTART"} : MacroSet) ∧
      "LMD_MIXING" ∉ ({"BIO_FENNEL", "PERFECT_RESTART"} : MacroSet) ∧
      "MY25_MIXING" ∉ ({"BIO_FENNEL", "PERFECT_RESTART"} : MacroSet)) ∧
    ("ANA_VMIX" ∈ upwelling {"BIO_FENNEL", "PERFECT_RESTART"} ∧
      "GLS_MIXING" ∉ upwelling {"BIO_FENNEL", "PERFECT_RESTART"} ∧
      "LMD_MIXING" ∉ upwelling {"BIO_FENNEL", "PERFECT_RESTART"} ∧
      "MY25_MIXING" ∉ upwelling {"BIO_FENNEL", "PERFECT_RESTART"}) :=
  ⟨by decide, C3_ana_vmix_fallback _ (by decide) (by decide) (by decide)⟩

/-- C4 as stated fails on `upwelling.h`: `AVERAGES`, `DIAGNOSTICS_TS` and
`DIAGNOSTICS_UV` are set by unconditional top-level `#define`s, and on the
macro set `PERFECT_RESTART` none of them is defined after the header. -/
theorem C4_counterexample :
    ("AVERAGES" ∈ topDefines upwelling_h ∧ "AVERAGES" ∉ upwelling {"PERFECT_RESTART"}) ∧
    ("DIAGNOSTICS_TS" ∈ topDefines upwelling_h ∧
      "DIAGNOSTICS_TS" ∉ upwelling {"PERFECT_RESTART"}) ∧
    ("DIAGNOSTICS_UV" ∈ topDefines upwelling_h ∧
      "DIAGNOSTICS_UV" ∉ upwelling {"PERFECT_RESTART"}) := by
  decide

/-- C4, amended: in `bpart.h` and `ideal_2per.h`, for every macro set before
the header, every name set by a top-level `#define` is defined after it and
every name cleared by a top-level `#undef` is not.  In `upwelling.h` the same
holds for every top-level `#undef` and for every top-level `#define` other than
`AVERAGES`, `DIAGNOSTICS_TS`, `DIAGNOSTICS_UV`; these three are defined after
the header exactly when `PERFECT_RESTART` was not defined before it. -/
theorem C4_top_level_precedence (S : MacroSet) :
    ((∀ n ∈ topDefines bpart_h, n ∈ bpart S) ∧ (∀ n ∈ topUndefs bpart_h, n ∉ bpart S)) ∧
    ((∀ n ∈ topDefines ideal_2per_h, n ∈ ideal_2per S) ∧
      (∀ n ∈ topUndefs ideal_2per_h, n ∉ ideal_2per S)) ∧
    ((∀ n ∈ topDefines upwelling_h,
        n ∈ upwelling S ↔
          (n ∈ ["AVERAGES", "DIAGNOSTICS_TS", "DIAGNOSTICS_UV"] → "PERFECT_RESTART" ∉ S)) ∧
      (∀ n ∈ topUndefs upwelling_h, n ∉ upwelling S)) := by
  rw [topDefines_bpart, topUndefs_bpart, topDefines_ideal_2per, topUndefs_ideal_2per,
    topDefines_upwelling, topUndefs_upwelling]
  refine ⟨⟨?_, ?_⟩, ⟨?_, ?_⟩, ⟨?_, ?_⟩⟩
  · simp only [List.forall_mem_cons, List.not_mem_nil, false_implies, implies_true, mem_bpart,
      bpart_log, value_append, value_ite, value_nil, value_cons, String.reduceEq, reduceIte,
      ite_self, and_self]
  · simp only [List.forall_mem_cons, List.not_mem_nil, false_implies, implies_true, mem_bpart,
      bpart_log, value_append, value_ite, value_nil, value_cons, String.reduceEq, reduceIte,
      ite_self, Bool.false_eq_true, not_false_eq_true, and_self]
  · simp only [List.forall_mem_cons, List.not_mem_nil, false_implies, implies_true,
      mem_ideal_2per, ideal_2per_log, value_nil, value_cons, String.reduceEq, reduceIte,
      and_self]
  · simp only [List.forall_mem_cons, List.not_mem_nil, false_implies, implies_true,
      mem_ideal_2per, ideal_2per_log, value_nil, value_cons, String.reduceEq, reduceIte,
      Bool.false_eq_true, not_false_eq_true, and_self]
  · simp only [List.forall_mem_cons, List.not_mem_nil, false_implies, implies_true, and_true]
    by_cases h : "PERFECT_RESTART" ∈ S <;>
    simp only [mem_upwelling, upwelling_log, value_append, value_ite, value_nil, value_cons,
      String.reduceEq, reduceIte, ite_self, List.mem_cons, List.not_mem_nil, or_false, or_true,
      true_or, or_self, h, not_true_eq_false, not_false_eq_true, imp_false, true_implies,
      false_implies, iff_self, Bool.false_eq_true, and_self]
  · simp only [List.forall_mem_cons, List.not_mem_nil, false_implies, implies_true,
      mem_upwelling, upwelling_log, value_append, value_ite, value_nil, value_cons,
      String.reduceEq, reduceIte, ite_self, Bool.false_eq_true, not_false_eq_true, and_self]

/-- C5 as stated fails on `upwelling.h` and on `bpart.h`: after `upwelling.h`
on the macro set `GLS_MIXING`, `LMD_MIXING`, and after `bpart.h` on the macro
set `LMD_MIXING`, both `GLS_MIXING` and `LMD_MIXING` are defined. -/
theorem C5_counterexample :
    ("GLS_MIXING" ∈ upwelling {"GLS_MIXING", "LMD_MIXING"} ∧
      "LMD_MIXING" ∈ upwelling {"GLS_MIXING", "LMD_MIXING"}) ∧
    ("GLS_MIXING" ∈ bpart {"LMD_MIXING"} ∧ "LMD_MIXING" ∈ bpart {"LMD_MIXING"}) := by
  decide

/-- C5, amended: after `ideal_2per.h` at most one of `GLS_MIXING`,
`LMD_MIXING` is defined, for every macro set before it.  After `bpart.h` at
most one of them is defined exactly when `LMD_MIXING` was not defined before,
and after `upwelling.h` exactly when at most one of them was defined before. -/
theorem C5_mixing_conflict (S : MacroSet) :
    ¬ ("GLS_MIXING" ∈ ideal_2per S ∧ "LMD_MIXING" ∈ ideal_2per S) ∧
    (¬ ("GLS_MIXING" ∈ bpart S ∧ "LMD_MIXING" ∈ bpart S) ↔ "LMD_MIXING" ∉ S) ∧
    (¬ ("GLS_MIXING" ∈ upwelling S ∧ "LMD_MIXING" ∈ upwelling S) ↔
      ¬ ("GLS_MIXING" ∈ S ∧ "LMD_MIXING" ∈ S)) := by
  simp only [mem_ideal_2per, mem_bpart, mem_upwelling, ideal_2per_log, bpart_log, upwelling_log,
    value_append, value_ite, value_nil, value_cons, String.reduceEq, reduceIte, ite_self,
    decide_eq_true_eq, Bool.false_eq_true, and_false, true_and, not_false_eq_true, iff_self,
    and_self]

/-- C6: each header is idempotent as a function on macro sets: including it a
second time, on the macro set the first inclusion left, changes nothing. -/
theorem C6_idempotent (S : MacroSet) :
    upwelling (upwelling S) = upwelling S ∧ bpart (bpart S) = bpart S ∧
      ideal_2per (ideal_2per S) = ideal_2per S := by
  refine ⟨?_, ?_, ?_⟩
  · rw [upwelling_eq_replay (upwelling S), upwelling_log_upwelling, upwelling_eq_replay S,
      replay_replay]
  · rw [bpart_eq_replay (bpart S), bpart_log_bpart, bpart_eq_replay S, replay_replay]
  · rw [ideal_2per_eq_replay (ideal_2per S), ideal_2per_eq_replay S, replay_replay]

/-- C7 as stated fails: the macro set `LMD_MIXING` contains one of the three
mixing schemes and not `ANA_VMIX`, yet `ANA_VMIX` is defined after
`upwelling.h`. -/
theorem C7_counterexample :
    "LMD_MIXING" ∈ ({"LMD_MIXING"} : MacroSet) ∧ "ANA_VMIX" ∉ ({"LMD_MIXING"} : MacroSet) ∧
      "ANA_VMIX" ∈ upwelling {"LMD_MIXING"} := by
  decide

/-- C7, amended: in `upwelling.h`, when the macro set before the header
contains `GLS_MIXING` or `MY25_MIXING`, `ANA_VMIX` is defined after the header
if and only if it was defined before. -/
theorem C7_ana_vmix_noop (S : MacroSet) (h : "GLS_MIXING" ∈ S ∨ "MY25_MIXING" ∈ S) :
    "ANA_VMIX" ∈ upwelling S ↔ "ANA_VMIX" ∈ S := by
  simp only [mem_upwelling, upwelling_log, value_append, value_ite, value_nil, value_cons,
    String.reduceEq, reduceIte, ite_self, h, decide_eq_true_eq]

/-- C7, amended, at the macro sets `GLS_MIXING` and `MY25_MIXING`, `ANA_VMIX`. -/
theorem C7_ana_vmix_noop_witness :
    (("GLS_MIXING" ∈ ({"GLS_MIXING"} : MacroSet) ∨ "MY25_MIXING" ∈ ({"GLS_MIXING"} : MacroSet)) ∧
      ("ANA_VMIX" ∈ upwelling {"GLS_MIXING"} ↔ "ANA_VMIX" ∈ ({"GLS_MIXING"} : MacroSet))) ∧
    (("GLS_MIXING" ∈ ({"MY25_MIXING", "ANA_VMIX"} : MacroSet) ∨
        "MY25_MIXING" ∈ ({"MY25_MIXING", "ANA_VMIX"} : MacroSet)) ∧
      ("ANA_VMIX" ∈ upwelling {"MY25_MIXING", "ANA_VMIX"} ↔
        "ANA_VMIX" ∈ ({"MY25_MIXING", "ANA_VMIX"} : MacroSet))) :=
  ⟨⟨by decide, C7_ana_vmix_noop _ (by decide)⟩, ⟨by decide, C7_ana_vmix_noop _ (by decide)⟩⟩

/-- C8: in `upwelling.h`, when the macro set before the header contains
`BIO_FENNEL`, the macro set after it contains `CARBON`, `DENITRIFICATION`,
`BIO_SEDIMENT`, `ANA_BIOLOGY`, `ANA_SPFLUX`, `ANA_BPFLUX` and `ANA_SRFLUX`, and
it contains `DIAGNOSTICS_BIO` if and only if `PERFECT_RESTART` was not defined
before. -/
theorem C8_bio_fennel_override (S : MacroSet) (h : "BIO_FENNEL" ∈ S) :
    "CARBON" ∈ upwelling S ∧ "DENITRIFICATION" ∈ upwelling S ∧ "BIO_SEDIMENT" ∈ upwelling S ∧
      "ANA_BIOLOGY" ∈ upwelling S ∧ "ANA_SPFLUX" ∈ upwelling S ∧ "ANA_BPFLUX" ∈ upwelling S ∧
      "ANA_SRFLUX" ∈ upwelling S ∧
      ("DIAGNOSTICS_BIO" ∈ upwelling S ↔ "PERFECT_RESTART" ∉ S) := by
  by_cases hR : "PERFECT_RESTART" ∈ S <;>
  simp only [mem_upwelling, upwelling_log, value_append, value_ite, value_nil, value_cons,
    String.reduceEq, reduceIte, ite_self, h, hR, true_or, Bool.false_eq_true, not_true_eq_false,
    not_false_eq_true, iff_self, and_self]

/-- C8 at the macro sets `BIO_FENNEL`, `PERFECT_RESTART` and `BIO_FENNEL`. -/
theorem C8_bio_fennel_override_witness :
    ("BIO_FENNEL" ∈ ({"BIO_FENNEL", "PERFECT_RESTART"} : MacroSet) ∧
      ("CARBON" ∈ upwelling {"BIO_FENNEL", "PERFECT_RESTART"} ∧
        "DENITRIFICATION" ∈ upwelling {"BIO_FENNEL", "PERFECT_RESTART"} ∧
        "BIO_SEDIMENT" ∈ upwelling {"BIO_FENNEL", "PERFECT_RESTART"} ∧
        "ANA_BIOLOGY" ∈ upwelling {"BIO_FENNEL", "PERFECT_RESTART"} ∧
        "ANA_SPFLUX" ∈ upwelling {"BIO_FENNEL", "PERFECT_RESTART"} ∧
        "ANA_BPFLUX" ∈ upwelling {"BIO_FENNEL", "PERFECT_RESTART"} ∧
        "ANA_SRFLUX" ∈ upwelling {"BIO_FENNEL", "PERFECT_RESTART"} ∧
        ("DIAGNOSTICS_BIO" ∈ upwelling {"BIO_FENNEL", "PERFECT_RESTART"} ↔
          "PERFECT_RESTART" ∉ ({"BIO_FENNEL", "PERFECT_RESTART"} : MacroSet)))) ∧
    ("BIO_FENNEL" ∈ ({"BIO_FENNEL"} : MacroSet) ∧
      ("CARBON" ∈ upwelling {"BIO_FENNEL"} ∧ "DENITRIFICATION" ∈ upwelling {"BIO_FENNEL"} ∧
        "BIO_SEDIMENT" ∈ upwelling {"BIO_FENNEL"} ∧ "ANA_BIOLOGY" ∈ upwelling {"BIO_FENNEL"} ∧
        "ANA_SPFLUX" ∈ upwelling {"BIO_FENNEL"} ∧ "ANA_BPFLUX" ∈ upwelling {"BIO_FENNEL"} ∧
        "ANA_SRFLUX" ∈ upwelling {"BIO_FENNEL"} ∧
        ("DIAGNOSTICS_BIO" ∈ upwelling {"BIO_FENNEL"} ↔
          "PERFECT_RESTART" ∉ ({"BIO_FENNEL"} : MacroSet)))) :=
  ⟨⟨by decide, C8_bio_fennel_override _ (by decide)⟩,
    ⟨by decide, C8_bio_fennel_override _ (by decide)⟩⟩

/-- C9: after `bpart.h`, for every macro set before it, `BIO_FENNEL`,
`BIO_SEDIMENT`, `DENITRIFICATION`, `OXYGEN`, `CARBON`, `pCO2_RZ`,
`TALK_NONCONSERV`, `ANA_SPFLUX` and `ANA_BPFLUX` are defined and `RIVER_DON` is
not, and each of `ANA_BIOLOGY`, `ANA_SRFLUX`, `HOLLING_GRAZING`,
`IVLEV_EXPLICIT`, which the header names only inside the comment of lines 61
to 81, is defined after the header if and only if it was defined before. -/
theorem C9_bpart_biology (S : MacroSet) :
    ("BIO_FENNEL" ∈ bpart S ∧ "BIO_SEDIMENT" ∈ bpart S ∧ "DENITRIFICATION" ∈ bpart S ∧
      "OXYGEN" ∈ bpart S ∧ "CARBON" ∈ bpart S ∧ "pCO2_RZ" ∈ bpart S ∧
      "TALK_NONCONSERV" ∈ bpart S ∧ "ANA_SPFLUX" ∈ bpart S ∧ "ANA_BPFLUX" ∈ bpart S) ∧
    "RIVER_DON" ∉ bpart S ∧
    (("ANA_BIOLOGY" ∈ bpart S ↔ "ANA_BIOLOGY" ∈ S) ∧ ("ANA_SRFLUX" ∈ bpart S ↔ "ANA_SRFLUX" ∈ S) ∧
      ("HOLLING_GRAZING" ∈ bpart S ↔ "HOLLING_GRAZING" ∈ S) ∧
      ("IVLEV_EXPLICIT" ∈ bpart S ↔ "IVLEV_EXPLICIT" ∈ S)) := by
  simp only [mem_bpart, bpart_log, value_append, value_ite, value_nil, value_cons,
    String.reduceEq, reduceIte, ite_self, decide_eq_true_eq, Bool.false_eq_true,
    not_false_eq_true, and_self]

/-- C10: `ideal_2per.h` is a constant overwrite.  There are two disjoint sets
`ON` and `OFF` with: for every macro set `S` before the header the macro set
after it is `(S \ OFF) ∪ ON`; `ANA_SRFLUX`, `ANA_SMFLUX`, `ANA_STFLUX`,
`KANTHA_CLAYSON` are in `ON`; `BULK_FLUXES`, `LMD_MIXING`, `ANA_PAIR`,
`ATM_PRESS`, `RAMP_TIDES`, `CANUTO_A`, `CANUTO_B` are in `OFF`; and the names
of the `LMD_MIXING` group and of the `BULK_FLUXES` group that only those groups
set (`LMD_RIMIX`, `LMD_CONVEC`, `LMD_SKPP`, `LMD_BKPP`, `LMD_NONLOCAL`,
`ANA_HUMIDITY`, `ANA_TAIR`, `LONGWAVE`, `ANA_RAIN`, `ANA_CLOUD`, `ANA_WINDS`)
are in neither and keep the status they had before. -/
theorem C10_ideal_2per_constant_overwrite :
    ∃ ON OFF : Finset String,
      Disjoint ON OFF ∧
      (∀ S : MacroSet, ideal_2per S = (S \ OFF) ∪ ON) ∧
      ("ANA_SRFLUX" ∈ ON ∧ "ANA_SMFLUX" ∈ ON ∧ "ANA_STFLUX" ∈ ON ∧ "KANTHA_CLAYSON" ∈ ON) ∧
      ("BULK_FLUXES" ∈ OFF ∧ "LMD_MIXING" ∈ OFF ∧ "ANA_PAIR" ∈ OFF ∧ "ATM_PRESS" ∈ OFF ∧
        "RAMP_TIDES" ∈ OFF ∧ "CANUTO_A" ∈ OFF ∧ "CANUTO_B" ∈ OFF) ∧
      (∀ x ∈ ["LMD_RIMIX", "LMD_CONVEC", "LMD_SKPP", "LMD_BKPP", "LMD_NONLOCAL", "ANA_HUMIDITY",
          "ANA_TAIR", "LONGWAVE", "ANA_RAIN", "ANA_CLOUD", "ANA_WINDS"],
        x ∉ ON ∧ x ∉ OFF ∧ ∀ S : MacroSet, (x ∈ ideal_2per S ↔ x ∈ S)) := by
  refine ⟨ideal_2per_log.onSet, ideal_2per_log.offSet, onSet_disjoint_offSet _, ?_, ?_, ?_, ?_⟩
  · intro S
    rw [ideal_2per_eq_replay, replay_eq_sdiff_union]
  · simp only [mem_onSet, ideal_2per_log, value_nil, value_cons, String.reduceEq, reduceIte,
      and_self]
  · simp only [mem_offSet, ideal_2per_log, value_nil, value_cons, String.reduceEq, reduceIte,
      and_self]
  · simp only [List.forall_mem_cons, List.not_mem_nil, false_implies, implies_true, mem_onSet,
      mem_offSet, mem_ideal_2per, ideal_2per_log, value_nil, value_cons, String.reduceEq,
      reduceIte, decide_eq_true_eq, Bool.false_eq_true, Bool.true_eq_false, not_false_eq_true,
      and_self]

end CppHeader
